import Mathlib

/-!
Shallow embedding of the core of libqi-release's messaging runtime:

* `RemoteObject` (src/libqimessaging/src/remoteobject.cpp): the client-side
  proxy — `metaCall`, `onMessagePending`, `metaEmit`, `connect`, `disconnect`.
* `TransportServer` (transport-server.cpp): `start`, `accept`,
  `nextPendingConnection`, `setCallbacks`.

External collaborators (the type system, signal triggering, libc's
`inet_addr`, libevent's bind) are modelled as parameters, per the spec's
boundary.  The pending-call registry (`std::map<int, qi::Promise>`) is
modelled as an association list with unique keys; `operator[]` assignment
replaces the value for an existing key, `erase` removes the key.
-/

namespace QiMsg

/-! ### Message envelope and collaborators -/

/-- Message types from the `switch (msg.type())` in `onMessagePending`:
`Type_Call`, `Type_Reply`, `Type_Error`, `Type_Event`; `Other` stands for
any further enum value, which falls into the `default:` branch exactly as
`Type_Call` does on a proxy. -/
inductive MessageType
  | Call
  | Reply
  | Error
  | Event
  | Other
deriving DecidableEq, Repr

/-- Payload buffer.  `strs` are the successive strings an `IDataStream`
extraction (`ds >> s`) yields; `raw` abstracts the remaining bytes handed
to `type->deserialize(in)`. -/
structure Buffer where
  strs : List String
  raw : Nat
deriving DecidableEq, Repr

/-- The wire envelope: id, type, service, object, function, event, buffer. -/
structure Message where
  id : Nat
  type : MessageType
  service : Nat
  function : Nat
  event : Nat
  buffer : Buffer
deriving DecidableEq, Repr

/-- A `MetaMethod`: its full signature string and its return signature. -/
structure MetaMethod where
  signature : String
  sigreturn : String
deriving DecidableEq, Repr

/-- External collaborators of the proxy, specified only at their boundary:
`metaObject().method(id)`, `Type::fromSignature`, `type->deserialize`, and
`signalBase(event)` presence. -/
structure Env where
  methods : Nat → Option MetaMethod
  typeOfSig : String → Option Nat
  deserialize : Nat → Buffer → Nat
  signalKnown : Nat → Bool

/-! ### Pending-call registry

`std::map<int, qi::Promise<GenericValue> > _promises`, guarded by `_mutex`.
Promises are identified by an abstract token. -/

/-- The registry: message id → promise token, unique keys. -/
abbrev Registry := List (Nat × Nat)

/-- `_promises.find(id)`: the token bound to `id`, if any. -/
def rfind? : Registry → Nat → Option Nat
  | [], _ => none
  | (k, v) :: rest, id => if k = id then some v else rfind? rest id

/-- `_promises.erase(id)`: remove the binding for `id` (a `std::map` holds
each key at most once, so removing the key is erasing its one entry). -/
def rerase : Registry → Nat → Registry
  | [], _ => []
  | (k, v) :: rest, id =>
      if k = id then rerase rest id else (k, v) :: rerase rest id

/-- `_promises[id] = tok`: `operator[]` assignment — replaces the value if
the key is present, inserts a fresh entry otherwise. -/
def rinsert : Registry → Nat → Nat → Registry
  | [], id, tok => [(id, tok)]
  | (k, v) :: rest, id, tok =>
      if k = id then (k, tok) :: rest else (k, v) :: rinsert rest id tok

/-! ### Inbound dispatch: `RemoteObject::onMessagePending` -/

/-- Log levels of the `qiLog…` calls along the dispatch paths. -/
inductive LogLevel
  | error
  | warning
  | verbose
  | debug
deriving DecidableEq, Repr

/-- What a promise is resolved with: `setValue` or `setError`. -/
inductive Resolution
  | value (v : Nat)
  | error (e : String)
deriving DecidableEq, Repr

/-- The observable outcome of a dispatch on the promise side:
`resolveFound id r` resolves the slot that was registered under `id`;
`resolveDummy r` resolves the local default-constructed
`qi::Promise<GenericValue> promise` that no caller holds (the `Type_Error`
branch does this when no slot was found, since it never checks `found`);
`drop` resolves nothing. -/
inductive DispatchAction
  | resolveFound (id : Nat) (r : Resolution)
  | resolveDummy (r : Resolution)
  | drop
deriving DecidableEq, Repr

/-- `ds >> s` on a stream of strings: pops the head, yields the empty
string on an exhausted stream. -/
def readString : List String → String × List String
  | [] => ("", [])
  | s :: rest => (s, rest)

/-- Result of `onMessagePending`: the registry after the locked
find/erase, the promise-side action, and the emitted log levels. -/
structure DispatchResult where
  registry : Registry
  action : DispatchAction
  logs : List LogLevel
deriving DecidableEq, Repr

/-- `RemoteObject::onMessagePending(msg)`, remoteobject.cpp lines 40-129.
Under `_mutex` it finds and erases the entry for `msg.id()` (for every
message type); then it switches on `msg.type()`:

* `Type_Reply`: no slot found → `qiLogError`, return.  Unknown method →
  `qiLogError`, `setError("Result for unknown function")`.  No type for the
  return signature → `setError("Unable to find a type for signature …")`.
  Else `setValue(type->deserialize(in))`.
* `Type_Error`: `found` is never consulted; read the signature string; if
  it is not `"s"`, `qiLogError` and `setError("unknown error")`; else read
  the error string, `qiLogVerbose`, and `setError(err)`.  When no slot was
  found, the resolved promise is the local default-constructed one.
* `Type_Event`: trigger the local signal if known (its effects are the
  signal collaborator's; deserialize exceptions would only add a warning),
  else `qiLogWarning` + `qiLogDebug`.  No call slot is ever resolved.
* default (`Type_Call` and anything else): `qiLogError`, return. -/
def onMessagePending (env : Env) (reg : Registry) (msg : Message) :
    DispatchResult :=
  let found := (rfind? reg msg.id).isSome
  let reg1 := rerase reg msg.id
  match msg.type with
  | .Reply =>
      if !found then
        ⟨reg1, .drop, [.debug, .error]⟩
      else
        match env.methods msg.function with
        | none =>
            ⟨reg1, .resolveFound msg.id (.error "Result for unknown function"),
              [.debug, .error]⟩
        | some mm =>
            match env.typeOfSig mm.sigreturn with
            | none =>
                ⟨reg1, .resolveFound msg.id
                  (.error ("Unable to find a type for signature " ++ mm.sigreturn)),
                  [.debug]⟩
            | some ty =>
                ⟨reg1, .resolveFound msg.id (.value (env.deserialize ty msg.buffer)),
                  [.debug]⟩
  | .Error =>
      let (sig, rest) := readString msg.buffer.strs
      if sig ≠ "s" then
        ⟨reg1,
          if found then .resolveFound msg.id (.error "unknown error")
          else .resolveDummy (.error "unknown error"),
          [.debug, .error]⟩
      else
        let (err, _) := readString rest
        ⟨reg1,
          if found then .resolveFound msg.id (.error err)
          else .resolveDummy (.error err),
          [.debug, .verbose]⟩
  | .Event =>
      if env.signalKnown msg.event then
        ⟨reg1, .drop, [.debug]⟩
      else
        ⟨reg1, .drop, [.debug, .warning, .debug]⟩
  | _ =>
      ⟨reg1, .drop, [.debug, .error]⟩

/-! ### Outbound call: `RemoteObject::metaCall` -/

/-- The socket, at the boundary the proxy consumes: `isConnected()` and
whether `send` of this message returns true. -/
structure Socket where
  connected : Bool
  sendOk : Bool
deriving DecidableEq, Repr

/-- The future view of the call's promise at `metaCall` return:
still pending, or already failed with an error string. -/
inductive FutureState
  | pending
  | failed (e : String)
deriving DecidableEq, Repr

/-- Atomic steps of `metaCall`, in program order, used to state ordering
properties (insert before send, resolve before erase). -/
inductive MetaAction
  | logDup
  | insertReg (id : Nat)
  | sendMsg (id : Nat)
  | logSendErr
  | resolveErr (e : String)
  | eraseReg (id : Nat)
deriving DecidableEq, Repr

/-- `!_socket || !_socket->isConnected() || !_socket->send(msg)`:
the failure condition of remoteobject.cpp line 166. -/
def sendFails (sock : Option Socket) : Bool :=
  match sock with
  | none => true
  | some s => !s.connected || !s.sendOk

/-- The error text built in the failure branch, lines 168-176: names the
method's signature when `metaObject().method(method)` is known, reports the
unknown id otherwise. -/
def sendFailureText (env : Env) (method : Nat) : String :=
  match env.methods method with
  | some meth => "Network error while sending data to method: '" ++ meth.signature ++ "'"
  | none => "Network error while sending data an unknown method (id=" ++ toString method ++ ")"

/-- Result of `metaCall`: the registry at return, the returned future's
state, and the trace of atomic actions in program order. -/
structure MetaCallResult where
  registry : Registry
  future : FutureState
  trace : List MetaAction
deriving DecidableEq, Repr

/-- `RemoteObject::metaCall(method, in, callType)`, lines 132-185.
`mid` is the fresh id the `qi::Message` constructor generated; `tok`
identifies the fresh promise `out`.  Under `_mutex`: if an entry for `mid`
is already present, `qiLogError` (and nothing more); then
`_promises[msg.id()] = out` (which replaces any existing entry).  Outside
the lock, line 166's short-circuit attempts `send` only when the socket is
present and connected.  On failure: `qiLogError`, build the error text,
`out.setError(…)`, and only then erase the entry under `_mutex`. -/
def metaCall (env : Env) (sock : Option Socket) (reg : Registry)
    (method mid tok : Nat) : MetaCallResult :=
  let dupLog : List MetaAction :=
    if (rfind? reg mid).isSome then [.logDup] else []
  let reg1 := rinsert reg mid tok
  let sendTrace : List MetaAction :=
    match sock with
    | none => []
    | some s => if s.connected then [.sendMsg mid] else []
  if sendFails sock then
    let e := sendFailureText env method
    ⟨rerase reg1 mid, .failed e,
      dupLog ++ [.insertReg mid] ++ sendTrace ++ [.logSendErr, .resolveErr e, .eraseReg mid]⟩
  else
    ⟨reg1, .pending, dupLog ++ [.insertReg mid] ++ sendTrace⟩

/-- Ordering check over a `metaCall` trace: walking the action list we
never meet `sendMsg mid` strictly before `insertReg mid`. -/
def noSendBeforeInsert (mid : Nat) : List MetaAction → Bool
  | [] => true
  | .sendMsg m :: rest =>
      if m = mid then false else noSendBeforeInsert mid rest
  | .insertReg m :: rest =>
      if m = mid then true else noSendBeforeInsert mid rest
  | _ :: rest => noSendBeforeInsert mid rest

/-! ### Interleaving of the send-failure path with the dispatch path

After `metaCall` inserted the entry for `mid` and `send` failed, the
remaining atomic steps of the failure branch are `out.setError(…)`
(line 177) and then the locked `_promises.erase(msg.id())` (lines 179-182).
The dispatch path for the same id performs the locked find-and-erase
(lines 47-55) and then resolves the found slot outside the lock; merging
take and resolve into one atomic step only removes interleavings in which
the take already fixed the `found` flag, so it does not change the
resolution count of any schedule. -/

/-- The competing atomic steps on a call's promise and registry entry. -/
inductive RaceOp
  | metaSetError
  | metaErase
  | dispatchTake
deriving DecidableEq, Repr

/-- Shared state of the race: the registry and how many times the call's
promise has received a `setValue`/`setError`. -/
structure RaceState where
  reg : Registry
  resolutions : Nat
deriving DecidableEq, Repr

/-- One atomic step.  `metaSetError` resolves the promise through the
local variable `out`, unconditionally.  `metaErase` removes the registry
entry.  `dispatchTake` finds and removes the entry and resolves the slot
only when it was present (a Reply/Error that finds no entry resolves no
registered slot). -/
def raceStep (mid : Nat) (st : RaceState) : RaceOp → RaceState
  | .metaSetError => { st with resolutions := st.resolutions + 1 }
  | .metaErase => { st with reg := rerase st.reg mid }
  | .dispatchTake =>
      if (rfind? st.reg mid).isSome then
        ⟨rerase st.reg mid, st.resolutions + 1⟩
      else
        st

/-- Run a schedule of atomic steps. -/
def raceRun (mid : Nat) (st : RaceState) : List RaceOp → RaceState
  | [] => st
  | op :: rest => raceRun mid (raceStep mid st op) rest

/-- The send-failure path's steps after the insert, in program order. -/
def metaFailOps : List RaceOp := [.metaSetError, .metaErase]

/-- The dispatch path's step for the same id. -/
def dispatchOps : List RaceOp := [.dispatchTake]

/-! ### `metaEmit`, `connect`, `disconnect`

Each of these reaches `_socket->send(msg)` with no null or connectivity
check on `_socket` (unlike `metaCall` line 166, whose short-circuit tests
`!_socket` first).  Dereferencing an empty socket pointer is a fault. -/

/-- Faults of the proxy's unguarded socket accesses. -/
inductive Fault
  | nullSocket
deriving DecidableEq, Repr

/-- `_socket->send(msg)` with no preceding null check: faults when the
stored socket is absent, otherwise reports whether the send succeeded. -/
def sendOn (sock : Option Socket) : Except Fault Bool :=
  match sock with
  | none => .error .nullSocket
  | some s => .ok s.sendOk

/-- `RemoteObject::metaEmit(event, args)`, lines 187-203: build the Event
message and hand it to `_socket->send`; a failed send only logs
"error while emiting event". -/
def metaEmit (sock : Option Socket) (event : Nat) :
    Except Fault (List LogLevel) :=
  match sendOn sock with
  | .error f => .error f
  | .ok true => .ok []
  | .ok false => .ok [.error]

/-- `RemoteObject::connect(event, sub)`, lines 205-228: `uid` is what
`DynamicObject::connect` (external) returned; the RegisterEvent control
message goes through `_socket->send`; a failed send only logs; `uid` is
returned regardless. -/
def connect (sock : Option Socket) (uid : Nat) :
    Except Fault (Nat × List LogLevel) :=
  match sendOn sock with
  | .error f => .error f
  | .ok true => .ok (uid, [])
  | .ok false => .ok (uid, [.error])

/-- `RemoteObject::disconnect(linkId)`, lines 230-257: recover
`event = linkId >> 16`; if the local `DynamicObject::disconnect`
(abstracted as `localOk`) fails, warn and return false without touching
the socket; else send UnregisterEvent through `_socket->send` (a failed
send only logs) and return true. -/
def disconnect (sock : Option Socket) (localOk : Nat → Bool)
    (linkId : Nat) : Except Fault Bool :=
  let _event := linkId >>> 16
  if localOk linkId then
    match sendOn sock with
    | .error f => .error f
    | .ok _ => .ok true
  else
    .ok false

/-! ### Transport server (transport-server.cpp) -/

/-- `TransportServerPrivate` state: the pending-connection queue (fds of
the accepted sockets, head = oldest) and the delegate pointer `tsi`
(`none` while no delegate has been installed through `setCallbacks`;
delegates are identified by an abstract token). -/
structure ServerState where
  connection : List Nat
  tsi : Option Nat
deriving DecidableEq, Repr

/-- Fault of the accept path: calling `tsi->newConnection()` through an
uninstalled (null or indeterminate) delegate pointer. -/
inductive ServerFault
  | nullDelegate
deriving DecidableEq, Repr

/-- `TransportServerPrivate::accept(fd, listener, context)`, lines 57-65:
push `new qi::TransportSocket(fd, base)` onto the queue, then call
`tsi->newConnection()` with no check of `tsi`. -/
def accept (st : ServerState) (fd : Nat) :
    ServerState × Except ServerFault Unit :=
  let st1 : ServerState := { st with connection := st.connection ++ [fd] }
  match st1.tsi with
  | none => (st1, .error .nullDelegate)
  | some _ => (st1, .ok ())

/-- `TransportServer::setCallbacks(delegate)`, lines 127-130. -/
def setCallbacks (st : ServerState) (d : Nat) : ServerState :=
  { st with tsi := some d }

/-- `TransportServer::nextPendingConnection()`, lines 115-125: pop the
front of the queue, or return null when empty. -/
def nextPendingConnection (st : ServerState) :
    Option Nat × ServerState :=
  match st.connection with
  | [] => (none, st)
  | front :: rest => (some front, { st with connection := rest })

/-- `TransportServerPrivate::start(base, url)`, lines 67-93: if
`inet_addr(url.host())` yields `INADDR_NONE` (`inetAddr` returns `none`),
log "Provided IP is not valid" and return false.  Otherwise the result of
`evconnlistener_new_bind` (abstracted as `bindResult`, `none` when the
bind failed) is assigned to the local `listener` and never examined, and
the function returns true. -/
def tsStart (inetAddr : String → Option Nat) (bindResult : Option Nat)
    (host : String) : Bool :=
  match inetAddr host with
  | none => false
  | some _ =>
      let _listener := bindResult
      true

/-- Every way to place one extra step into a sequence while preserving the
sequence's order: with a single-step dispatch path, these are exactly the
interleavings of the two paths. -/
def insertions (d : RaceOp) : List RaceOp → List (List RaceOp)
  | [] => [[d]]
  | x :: xs => (d :: x :: xs) :: (insertions d xs).map (fun l => x :: l)

/-! ### Concrete fixtures used by witnesses and counterexamples -/

/-- An environment whose collaborators know nothing: no methods, no types,
no signals. -/
def envC : Env where
  methods := fun _ => none
  typeOfSig := fun _ => none
  deserialize := fun _ b => b.raw
  signalKnown := fun _ => false

/-- A method of a known signature. -/
def methC : MetaMethod := ⟨"reply::(i)", "i"⟩

/-- An environment where method 3 is `methC` and signature `"i"` has a
type. -/
def envM : Env where
  methods := fun i => if i = 3 then some methC else none
  typeOfSig := fun s => if s = "i" then some 1 else none
  deserialize := fun _ b => b.raw
  signalKnown := fun _ => false

/-- A Reply message with id 1. -/
def msgReplyC : Message := ⟨1, .Reply, 7, 3, 0, ⟨[], 42⟩⟩

/-- A well-formed Error message with id 1: payload signature `"s"`, error
string `"boom"`. -/
def msgErrC : Message := ⟨1, .Error, 7, 3, 0, ⟨["s", "boom"], 0⟩⟩

/-- An Event message with id 1. -/
def msgEventC : Message := ⟨1, .Event, 7, 3, 9, ⟨[], 0⟩⟩

/-- `inet_addr` at the boundary: parses `"127.0.0.1"`, rejects the rest. -/
def inetAddrC : String → Option Nat :=
  fun h => if h = "127.0.0.1" then some 2130706433 else none

/-! ### Registry lemmas -/

/-- After erasing an id, looking it up finds nothing. -/
theorem rfind?_rerase (reg : Registry) (id : Nat) :
    rfind? (rerase reg id) id = none := by
  induction reg with
  | nil => rfl
  | cons kv rest ih =>
      obtain ⟨k, v⟩ := kv
      by_cases h : k = id <;> simp [rerase, rfind?, h, ih]

/-- After `operator[]` assignment, looking the id up finds the new token. -/
theorem rfind?_rinsert_self (reg : Registry) (id tok : Nat) :
    rfind? (rinsert reg id tok) id = some tok := by
  induction reg with
  | nil => simp [rinsert, rfind?]
  | cons kv rest ih =>
      obtain ⟨k, v⟩ := kv
      by_cases h : k = id <;> simp [rinsert, rfind?, h, ih]

/-- `onMessagePending` erases the incoming id's entry for every message
type: its registry component is always `rerase reg msg.id`. -/
theorem onMessagePending_registry (env : Env) (reg : Registry)
    (msg : Message) :
    (onMessagePending env reg msg).registry = rerase reg msg.id := by
  unfold onMessagePending
  cases msg.type <;> dsimp only <;> (repeat' split) <;> rfl

/-! ### Claim theorems -/

/-- C1: for every call issued via `metaCall`, the registry entry for the
call's message id is inserted before the message is handed to `send` (no
`sendMsg` precedes the `insertReg` in the action trace); while the call is
in flight (send succeeded) the id is bound to the call's slot; after a
send failure the id is absent; and after dispatching a Reply or an Error
carrying that id the id is absent. -/
theorem c1_pending_registry_lifecycle (env : Env) (sock : Option Socket)
    (reg : Registry) (method mid tok : Nat) (msg : Message) :
    noSendBeforeInsert mid (metaCall env sock reg method mid tok).trace = true
    ∧ (sendFails sock = false →
        rfind? (metaCall env sock reg method mid tok).registry mid = some tok)
    ∧ (sendFails sock = true →
        rfind? (metaCall env sock reg method mid tok).registry mid = none)
    ∧ ((msg.type = .Reply ∨ msg.type = .Error) → msg.id = mid →
        rfind? (onMessagePending env reg msg).registry mid = none) := by
  refine ⟨?_, ?_, ?_, ?_⟩
  · rcases sock with _ | s
    · cases hdup : (rfind? reg mid).isSome <;>
        simp [metaCall, sendFails, hdup, noSendBeforeInsert]
    · cases hc : s.connected <;> cases hs : s.sendOk <;>
        cases hdup : (rfind? reg mid).isSome <;>
        simp [metaCall, sendFails, hc, hs, hdup, noSendBeforeInsert]
  · intro h
    simp [metaCall, h, rfind?_rinsert_self]
  · intro h
    simp [metaCall, h, rfind?_rerase]
  · intro _ hid
    rw [onMessagePending_registry, hid]
    exact rfind?_rerase reg mid

/-- Witness for C1 at a concrete connected socket and a concrete Reply. -/
theorem c1_pending_registry_lifecycle_witness :
    sendFails (some ⟨true, true⟩) = false
    ∧ noSendBeforeInsert 1
        (metaCall envC (some ⟨true, true⟩) [] 0 1 9).trace = true
    ∧ rfind? (metaCall envC (some ⟨true, true⟩) [] 0 1 9).registry 1 = some 9
    ∧ rfind? (onMessagePending envC [] msgReplyC).registry 1 = none :=
  ⟨by decide,
   (c1_pending_registry_lifecycle envC (some ⟨true, true⟩) [] 0 1 9 msgReplyC).1,
   (c1_pending_registry_lifecycle envC (some ⟨true, true⟩) [] 0 1 9 msgReplyC).2.1
     (by decide),
   (c1_pending_registry_lifecycle envC (some ⟨true, true⟩) [] 0 1 9 msgReplyC).2.2.2
     (Or.inl rfl) rfl⟩

/-- C4: when the socket is absent, disconnected, or `send` fails, the
future returned by `metaCall` is already failed with the text built by the
failure branch — naming the method's signature when the method id is
known, reporting the unknown id otherwise — and the registry no longer
holds the call's id. -/
theorem c4_send_failure_resolution (env : Env) (sock : Option Socket)
    (reg : Registry) (method mid tok : Nat) (h : sendFails sock = true) :
    (metaCall env sock reg method mid tok).future
      = .failed (sendFailureText env method)
    ∧ rfind? (metaCall env sock reg method mid tok).registry mid = none
    ∧ (∀ m, env.methods method = some m →
        sendFailureText env method
          = "Network error while sending data to method: '" ++ m.signature ++ "'")
    ∧ (env.methods method = none →
        sendFailureText env method
          = "Network error while sending data an unknown method (id="
              ++ toString method ++ ")") := by
  refine ⟨?_, ?_, ?_, ?_⟩
  · simp [metaCall, h]
  · simp [metaCall, h, rfind?_rerase]
  · intro m hm
    simp [sendFailureText, hm]
  · intro hm
    simp [sendFailureText, hm]

/-- Witness for C4 on a disconnected socket, method 3 known to `envM`. -/
theorem c4_send_failure_resolution_witness :
    sendFails (some ⟨false, true⟩) = true
    ∧ (metaCall envM (some ⟨false, true⟩) [] 3 1 50).future
        = FutureState.failed "Network error while sending data to method: 'reply::(i)'"
    ∧ rfind? (metaCall envM (some ⟨false, true⟩) [] 3 1 50).registry 1 = none :=
  ⟨by decide,
   ((c4_send_failure_resolution envM (some ⟨false, true⟩) [] 3 1 50 (by decide)).1).trans
     (by decide),
   (c4_send_failure_resolution envM (some ⟨false, true⟩) [] 3 1 50 (by decide)).2.1⟩

/-- C7: an inbound Error whose id matches a pending slot resolves that
slot with `"unknown error"` when the leading signature string is not
`"s"`, and with the parsed error string when it is. -/
theorem c7_error_payload_parsing (env : Env) (reg : Registry)
    (msg : Message) (tok : Nat) (ht : msg.type = .Error)
    (hf : rfind? reg msg.id = some tok) :
    ((readString msg.buffer.strs).1 ≠ "s" →
      (onMessagePending env reg msg).action
        = .resolveFound msg.id (.error "unknown error"))
    ∧ ((readString msg.buffer.strs).1 = "s" →
      (onMessagePending env reg msg).action
        = .resolveFound msg.id
            (.error (readString (readString msg.buffer.strs).2).1)) := by
  constructor
  · intro hs
    simp [onMessagePending, ht, hf, hs]
  · intro hs
    simp [onMessagePending, ht, hf, hs]

/-- Witness for C7 on the concrete Error message `s:"boom"` with its slot
pending. -/
theorem c7_error_payload_parsing_witness :
    msgErrC.type = MessageType.Error
    ∧ rfind? [(1, 9)] msgErrC.id = some 9
    ∧ (onMessagePending envC [(1, 9)] msgErrC).action
        = DispatchAction.resolveFound 1 (.error "boom") :=
  ⟨rfl, by decide,
   ((c7_error_payload_parsing envC [(1, 9)] msgErrC 9 rfl (by decide)).2
     (by decide)).trans (by decide)⟩

/-- C10: `onMessagePending` removes the registry entry for the incoming
id before inspecting the message type — for every type the resulting
registry is `rerase reg msg.id`, and the erased id can no longer be
found — and an Event message resolves nothing, so a pending call whose id
an Event carries loses its slot without any resolution. -/
theorem c10_erase_precedes_type_dispatch (env : Env) (reg : Registry)
    (msg : Message) :
    (onMessagePending env reg msg).registry = rerase reg msg.id
    ∧ rfind? (onMessagePending env reg msg).registry msg.id = none
    ∧ (msg.type = .Event → (onMessagePending env reg msg).action = .drop) := by
  refine ⟨onMessagePending_registry env reg msg, ?_, ?_⟩
  · rw [onMessagePending_registry]
    exact rfind?_rerase reg msg.id
  · intro ht
    simp [onMessagePending, ht]
    split <;> rfl

/-- Witness for C10: an Event whose id 1 matches a pending slot erases
that slot and resolves nothing. -/
theorem c10_erase_precedes_type_dispatch_witness :
    msgEventC.type = MessageType.Event
    ∧ (onMessagePending envC [(1, 9)] msgEventC).registry = rerase [(1, 9)] 1
    ∧ rfind? (onMessagePending envC [(1, 9)] msgEventC).registry 1 = none
    ∧ (onMessagePending envC [(1, 9)] msgEventC).action = DispatchAction.drop :=
  ⟨rfl,
   (c10_erase_precedes_type_dispatch envC [(1, 9)] msgEventC).1,
   (c10_erase_precedes_type_dispatch envC [(1, 9)] msgEventC).2.1,
   (c10_erase_precedes_type_dispatch envC [(1, 9)] msgEventC).2.2 rfl⟩

/-- C2 counterexample: in the interleaving where the dispatch path's
find-and-remove runs between the failed send and the failure path's
`setError`/`erase`, the call's promise receives two resolutions.  The
schedule is a legal interleaving (an insertion of the dispatch step into
the failure path's program order), and running it from a state holding the
call's entry yields a resolution count of 2 — refuting the claim that
every interleaving resolves the slot at most once. -/
theorem c2_double_resolution_counterexample :
    [RaceOp.dispatchTake, .metaSetError, .metaErase]
        ∈ insertions RaceOp.dispatchTake metaFailOps
    ∧ (raceRun 1 ⟨[(1, 100)], 0⟩
        [RaceOp.dispatchTake, .metaSetError, .metaErase]).resolutions = 2 := by
  decide

/-- C2 amended: the promise receives exactly one resolution in the one
interleaving where the dispatch's find-and-remove runs after the failure
path's erase, and exactly two in both interleavings where it runs before
the erase; the three schedules listed are all the interleavings of the
dispatch step with the failure path. -/
theorem c2_resolution_per_schedule (reg : Registry) (mid tok : Nat)
    (h : rfind? reg mid = some tok) :
    (raceRun mid ⟨reg, 0⟩
        [RaceOp.metaSetError, .metaErase, .dispatchTake]).resolutions = 1
    ∧ (raceRun mid ⟨reg, 0⟩
        [RaceOp.metaSetError, .dispatchTake, .metaErase]).resolutions = 2
    ∧ (raceRun mid ⟨reg, 0⟩
        [RaceOp.dispatchTake, .metaSetError, .metaErase]).resolutions = 2
    ∧ insertions RaceOp.dispatchTake metaFailOps
        = [[RaceOp.dispatchTake, .metaSetError, .metaErase],
           [RaceOp.metaSetError, .dispatchTake, .metaErase],
           [RaceOp.metaSetError, .metaErase, .dispatchTake]] := by
  refine ⟨?_, ?_, ?_, by decide⟩ <;>
    simp [raceRun, raceStep, h, rfind?_rerase]

/-- Witness for C2's amended theorem at the concrete one-entry registry. -/
theorem c2_resolution_per_schedule_witness :
    rfind? [(1, 100)] 1 = some 100
    ∧ (raceRun 1 ⟨[(1, 100)], 0⟩
        [RaceOp.metaSetError, .metaErase, .dispatchTake]).resolutions = 1 :=
  ⟨by decide, (c2_resolution_per_schedule [(1, 100)] 1 100 (by decide)).1⟩

/-- C3 counterexample: with the entry (5 ↦ 100) already pending, a
`metaCall` that generates the same id 5 logs the duplicate but its
`_promises[msg.id()] = out` replaces the entry — afterwards id 5 is bound
to the new token 101, not to the existing 100 — refuting the claim that
the existing entry is not overwritten. -/
theorem c3_overwrite_counterexample :
    MetaAction.logDup
        ∈ (metaCall envC (some ⟨true, true⟩) [(5, 100)] 0 5 101).trace
    ∧ rfind? (metaCall envC (some ⟨true, true⟩) [(5, 100)] 0 5 101).registry 5
        = some 101
    ∧ some (101 : Nat) ≠ some 100 := by
  decide

/-- C3 amended: when `metaCall` generates an id already present in the
registry, an error is logged and the new slot replaces the existing
entry. -/
theorem c3_duplicate_id_overwrites (env : Env) (sock : Option Socket)
    (reg : Registry) (method mid tok : Nat)
    (h : (rfind? reg mid).isSome = true) :
    MetaAction.logDup ∈ (metaCall env sock reg method mid tok).trace
    ∧ (sendFails sock = false →
        rfind? (metaCall env sock reg method mid tok).registry mid = some tok) := by
  constructor
  · cases hs : sendFails sock <;> simp [metaCall, h, hs]
  · intro hs
    simp [metaCall, hs, rfind?_rinsert_self]

/-- Witness for C3's amended theorem at the concrete duplicate id 5. -/
theorem c3_duplicate_id_overwrites_witness :
    (rfind? [(5, 100)] 5).isSome = true
    ∧ MetaAction.logDup
        ∈ (metaCall envC (some ⟨true, true⟩) [(5, 100)] 0 5 101).trace
    ∧ rfind? (metaCall envC (some ⟨true, true⟩) [(5, 100)] 0 5 101).registry 5
        = some 101 :=
  ⟨by decide,
   (c3_duplicate_id_overwrites envC (some ⟨true, true⟩) [(5, 100)] 0 5 101
     (by decide)).1,
   (c3_duplicate_id_overwrites envC (some ⟨true, true⟩) [(5, 100)] 0 5 101
     (by decide)).2 (by decide)⟩

/-- C5 counterexample: a well-formed Error message (`s:"boom"`) whose id 1
is not in the registry is neither logged at error level (only debug and
verbose are emitted) nor dropped — its payload is parsed and `setError` is
invoked on the local default-constructed promise — refuting the claim that
such a message is logged at error level and dropped. -/
theorem c5_error_unknown_id_counterexample :
    rfind? ([] : Registry) msgErrC.id = none
    ∧ LogLevel.error ∉ (onMessagePending envC [] msgErrC).logs
    ∧ (onMessagePending envC [] msgErrC).action ≠ DispatchAction.drop
    ∧ (onMessagePending envC [] msgErrC).action
        = DispatchAction.resolveDummy (.error "boom") := by
  decide

/-- C5 amended: a Reply whose id is not in the registry is logged at error
level and dropped; an Error whose id is not in the registry is not checked
against the registry — its payload is parsed and `setError` is invoked on
the local default-constructed promise; in every case no registered
completion slot is resolved. -/
theorem c5_unknown_id_handling (env : Env) (reg : Registry) (msg : Message)
    (h : rfind? reg msg.id = none) :
    (msg.type = .Reply →
      (onMessagePending env reg msg).action = .drop
      ∧ LogLevel.error ∈ (onMessagePending env reg msg).logs)
    ∧ (msg.type = .Error →
      ∃ r, (onMessagePending env reg msg).action = .resolveDummy r)
    ∧ (∀ i r, (onMessagePending env reg msg).action ≠ .resolveFound i r) := by
  refine ⟨?_, ?_, ?_⟩
  · intro ht
    simp [onMessagePending, ht, h]
  · intro ht
    by_cases hs : (readString msg.buffer.strs).1 = "s" <;>
      simp [onMessagePending, ht, h, hs]
  · intro i r
    cases ht : msg.type <;>
      simp [onMessagePending, ht, h] <;>
      (repeat' split) <;> simp

/-- Witness for C5's amended theorem on a Reply with unknown id. -/
theorem c5_unknown_id_handling_witness :
    rfind? ([] : Registry) msgReplyC.id = none
    ∧ (onMessagePending envC [] msgReplyC).action = DispatchAction.drop
    ∧ LogLevel.error ∈ (onMessagePending envC [] msgReplyC).logs :=
  ⟨by decide,
   ((c5_unknown_id_handling envC [] msgReplyC (by decide)).1 rfl).1,
   ((c5_unknown_id_handling envC [] msgReplyC (by decide)).1 rfl).2⟩

/-- C6: `TransportServerPrivate::start` returns false when the host does
not parse as a dotted-quad IPv4 address, but it assigns the result of
`evconnlistener_new_bind` to an unused local and returns true whether the
bind succeeded or failed — evaluating the code at the failing input
(parseable host, failed bind) yields true where the claim requires
false. -/
theorem c6_start_ignores_bind_failure :
    tsStart inetAddrC none "127.0.0.1" = true
    ∧ tsStart inetAddrC (some 4) "127.0.0.1" = true
    ∧ tsStart inetAddrC (some 4) "not-an-ip" = false := by
  decide

/-- C8 counterexample: accepting fd 3 on a server with no delegate
installed pushes the socket but the `tsi->newConnection()` call faults on
the uninstalled delegate — refuting the claim that the notification has no
effect and does not fault. -/
theorem c8_accept_without_delegate_counterexample :
    (accept ⟨[], none⟩ 3).2 = Except.error ServerFault.nullDelegate
    ∧ (accept ⟨[], none⟩ 3).1.connection = [3] :=
  ⟨rfl, rfl⟩

/-- C8 amended: `accept` always pushes the accepted socket onto the
pending queue; when no delegate is installed the unconditional
`tsi->newConnection()` call dereferences the uninstalled delegate and
faults, and only after `setCallbacks` has installed a delegate does the
notification complete without fault. -/
theorem c8_accept_delegate_behavior (st : ServerState) (fd : Nat) :
    (accept st fd).1.connection = st.connection ++ [fd]
    ∧ (st.tsi = none →
        (accept st fd).2 = Except.error ServerFault.nullDelegate)
    ∧ (∀ d, st.tsi = some d → (accept st fd).2 = Except.ok ())
    ∧ (∀ d, (setCallbacks st d).tsi = some d) := by
  obtain ⟨conn, tsi⟩ := st
  cases tsi <;> simp [accept, setCallbacks]

/-- Witness for C8's amended theorem on the empty, delegate-less server. -/
theorem c8_accept_delegate_behavior_witness :
    (⟨[], none⟩ : ServerState).tsi = none
    ∧ (accept ⟨[], none⟩ 3).1.connection = [] ++ [3]
    ∧ (accept ⟨[], none⟩ 3).2 = Except.error ServerFault.nullDelegate :=
  ⟨rfl,
   (c8_accept_delegate_behavior ⟨[], none⟩ 3).1,
   (c8_accept_delegate_behavior ⟨[], none⟩ 3).2.1 rfl⟩

/-- C9: `metaEmit`, `connect`, and `disconnect` reach `_socket->send` with
no null check, so with an absent socket each faults (for `disconnect`,
whenever the local removal succeeds and the send is reached), whereas
`metaCall` checks the socket first and fails the call gracefully: its
future is already failed and the registry holds no entry. -/
theorem c9_unguarded_socket_dereference (event uid linkId : Nat)
    (localOk : Nat → Bool) (env : Env) (reg : Registry)
    (method mid tok : Nat) (h : localOk linkId = true) :
    metaEmit none event = Except.error Fault.nullSocket
    ∧ connect none uid = Except.error Fault.nullSocket
    ∧ disconnect none localOk linkId = Except.error Fault.nullSocket
    ∧ (metaCall env none reg method mid tok).future
        = .failed (sendFailureText env method)
    ∧ rfind? (metaCall env none reg method mid tok).registry mid = none := by
  refine ⟨rfl, rfl, ?_, ?_, ?_⟩
  · simp [disconnect, sendOn, h]
  · simp [metaCall, sendFails]
  · simp [metaCall, sendFails, rfind?_rerase]

/-- Witness for C9 at concrete arguments with a succeeding local
disconnect. -/
theorem c9_unguarded_socket_dereference_witness :
    (fun _ : Nat => true) 5 = true
    ∧ metaEmit none 2 = Except.error Fault.nullSocket
    ∧ connect none 4 = Except.error Fault.nullSocket
    ∧ disconnect none (fun _ => true) 5 = Except.error Fault.nullSocket
    ∧ (metaCall envC none [] 0 1 9).future
        = FutureState.failed (sendFailureText envC 0) :=
  ⟨rfl,
   (c9_unguarded_socket_dereference 2 4 5 (fun _ => true) envC [] 0 1 9 rfl).1,
   (c9_unguarded_socket_dereference 2 4 5 (fun _ => true) envC [] 0 1 9 rfl).2.1,
   (c9_unguarded_socket_dereference 2 4 5 (fun _ => true) envC [] 0 1 9 rfl).2.2.1,
   (c9_unguarded_socket_dereference 2 4 5 (fun _ => true) envC [] 0 1 9 rfl).2.2.2.1⟩

end QiMsg
